import Mathlib

/-!
Verification of the credential acquisition and login flow of the wandb
client (files src/wandb/lib/apikey.py and src/wandb/sdk/wandb_login.py).

The Python code is shallowly embedded: API keys are lists of characters,
machine state that the code reads (persisted credential store, terminal
interactivity, scripted interactive input, results of external callbacks
and remote calls) is passed in explicitly, and the externally observable
side effects (terminal output, credential file writes, network calls)
are collected in an event trace.
-/

namespace Wandb

/-- An API key: the character sequence of a Python string. -/
abbrev Key := List Char

/-- The four login choices of apikey.py (LOGIN_CHOICES).  In the source they
are the four distinct string constants LOGIN_CHOICE_ANON, LOGIN_CHOICE_NEW,
LOGIN_CHOICE_EXISTS, LOGIN_CHOICE_DRYRUN; only their identity is ever
inspected, so they are embedded as a closed enumeration. -/
inductive Choice where
  | anon
  | createAccount
  | useExisting
  | dryRun
deriving DecidableEq, Repr

/-- LOGIN_CHOICES from apikey.py, in source order. -/
def LOGIN_CHOICES : List Choice := [.anon, .createAccount, .useExisting, .dryRun]

/-- Observable side effects of the flow, in order of occurrence.
Display events carry only the data that varies; network and persistence
events identify the external operation performed. -/
inductive Event where
  | menuLine (i : Nat) (c : Choice)        -- termlog of one enumerated menu line
  | warnInvalidChoice                       -- termwarn for a rejected selection
  | logChose (c : Choice)                   -- termlog after a menu selection
  | logCreateUrl (app_url : String)         -- termlog of the signup authorize URL
  | logExistingUrl (app_url : String)       -- termlog of the authorize URL
  | netCreateAnonKey                        -- api.create_anonymous_api_key()
  | netrcWrite (host user : String) (key : Key)  -- write_netrc(base_url, user, key)
  | netUpdateUserSettings                   -- self.wl.update_user_settings()
  | storeRead                               -- apikey.api_key(settings) lookup
  | promptCall                              -- entry into the WandbLogin prompt step
  | writeKeyCall (key : Option Key)         -- apikey.write_key invoked with key
  | warnLoginIgnored                        -- termwarn: login after init has no effect
  | warnApiKeyInCode                        -- termwarn for explicit key in a notebook
  | logIdentity (entity : Option String)    -- login display of the current identity
deriving DecidableEq, Repr

/-- True for events that persist a credential. -/
def Event.isPersistWrite : Event → Bool
  | .netrcWrite _ _ _ => true
  | _ => false

/-- True for events that contact the remote service. -/
def Event.isNetwork : Event → Bool
  | .netCreateAnonKey => true
  | .netUpdateUserSettings => true
  | _ => false

/-- Python str.split with separator, restricted to the single-character
separator used by write_key.  Splits at EVERY occurrence of the dash, so a
string with n dashes yields n+1 parts. -/
def splitDash : Key → List Key
  | [] => [[]]
  | c :: cs =>
      if c = '-' then [] :: splitDash cs
      else
        match splitDash cs with
        | [] => [[c]]
        | p :: ps => (c :: p) :: ps

/-- Number of dash characters in a key. -/
def dashCount (k : Key) : Nat := (k.filter (fun c => c = '-')).length

/-- Outcome of apikey.write_key. -/
inductive WriteKeyResult where
  | skipped              -- falsy key: returns with no write and no error
  | written              -- write_netrc(base_url, "user", key) performed
  | lengthError (n : Nat)  -- ValueError carrying len(key)
  | unpackError          -- tuple unpacking of the split result failed
deriving DecidableEq, Repr

/-- write_key from src/wandb/lib/apikey.py (lines 128-139).
The source computes
  prefix, suffix = key.split("-") if "-" in key else ("", key)
which destructures the FULL split of the key; with two or more dashes the
split has more than two parts and the destructuring itself raises.
On success it writes iff the suffix has length 40, otherwise it raises a
ValueError carrying len(key) (the full key length). -/
def write_key (key : Key) : WriteKeyResult :=
  if key = [] then .skipped
  else
    match (if key.contains '-' then splitDash key else [[], key]) with
    | [_pre, suf] =>
        if suf.length = 40 then .written else .lengthError key.length
    | _ => .unpackError

/-- Python str.strip: drop ASCII whitespace at both ends. -/
def isStripped (c : Char) : Bool :=
  c = ' ' ∨ c = '\t' ∨ c = '\n' ∨ c = '\r' ∨ c = '\x0b' ∨ c = '\x0c'

/-- The .strip() applied to a pasted key in apikey.py. -/
def stripKey (k : Key) : Key :=
  ((k.dropWhile isStripped).reverse.dropWhile isStripped).reverse

/-- The merged Settings object as seen by this flow.  Settings construction
and merging (wandb.Settings, apply_login) are external collaborators; the
flow only reads these fields.  anonymous is None or a string in the source
(None and "" are both falsy, so falsy values are embedded as none);
jupyter, relogin, force, offline and silent are used only for their
truthiness. -/
structure Settings where
  anonymous : Option String
  jupyter : Bool
  base_url : String
  relogin : Bool
  force : Bool
  offline : Bool
  silent : Bool
deriving DecidableEq, Repr

/-- Results of the optional browser callback collaborator, one field per
call site in apikey.prompt_api_key.  In the source a single function value
is used at all three sites; each field records the value it returns at that
site (none embeds a falsy return for the two sites whose result is used as
a key; the dry-run site destructures the result as a (key, anonymous)
pair). -/
structure BrowserCb where
  signup_result : Option Key
  existing_result : Option Key
  dryrun_result : Option Key × Bool
deriving DecidableEq, Repr

/-- Environment read by apikey.prompt_api_key: terminal interactivity,
the scripted interactive inputs, and the results of external collaborators.
menu_script holds, for each menu read, the result of the int() conversion
of the typed line (none embeds a ValueError from non-numeric input).
pasted is the line returned by the masked input callback; anon_key is the
string returned by the anonymous-key-issuance endpoint. -/
structure PromptEnv where
  tty_stdout : Bool
  tty_stdin : Bool
  menu_script : List (Option Int)
  pasted : Key
  browser : Option BrowserCb
  anon_key : Key
deriving DecidableEq, Repr

/-- Exceptions the embedded flow can raise. -/
inductive PyError where
  | valueErrorLen (n : Nat)  -- ValueError from write_key, carrying len(key)
  | unpackError              -- ValueError from destructuring the split
  | typeError                -- TypeError: unexpected keyword argument
  | usageError               -- UsageError from wandb_login
deriving DecidableEq, Repr

/-- Result of apikey.prompt_api_key.  The Python function returns a string
key or None, or lets an exception propagate; pyFalse embeds the Python
constant False, which no branch of this version returns; blocked embeds a
menu loop that consumed the whole finite input script without a valid
selection (the real loop would keep prompting). -/
inductive PromptResult where
  | key (k : Key)
  | noneKey
  | pyFalse
  | blocked
  | exn (e : PyError)
deriving DecidableEq, Repr

/-- Recognizer for the embedded Python constant False among prompt
results. -/
def PromptResult.isPyFalse : PromptResult → Bool
  | .pyFalse => true
  | _ => false

/-- The menu construction of apikey.prompt_api_key (lines 42-47): start
from LOGIN_CHOICES, remove the anonymous choice when the anonymous mode is
"never", remove the dry-run choice when running in a notebook or when
offline fallback is disallowed. -/
def menu_choices (anon_mode : String) (jupyter no_offline : Bool) : List Choice :=
  let c1 := if anon_mode = "never" then LOGIN_CHOICES.erase .anon else LOGIN_CHOICES
  if jupyter || no_offline then c1.erase .dryRun else c1

/-- prompt_choice from apikey.py: int(typed line) - 1, or -1 when the
conversion raises ValueError. -/
def prompt_choice (entry : Option Int) : Int :=
  match entry with
  | some n => n - 1
  | none => -1

/-- The loop guard of the menu read: idx < 0 or idx > len(choices) - 1. -/
def invalid_entry (n : Nat) (entry : Option Int) : Bool :=
  prompt_choice entry < 0 ∨ prompt_choice entry > (n : Int) - 1

/-- The selection loop of apikey.prompt_api_key (lines 73-77): read inputs
until one yields a valid 0-based index, warning on each invalid one.
Returns the selected index (none when the script ran out) together with
the warning events emitted. -/
def choice_loop (n : Nat) : List (Option Int) → Option Nat × List Event
  | [] => (none, [])
  | e :: rest =>
      if invalid_entry n e then
        let r := choice_loop n rest
        (r.1, Event.warnInvalidChoice :: r.2)
      else (some (prompt_choice e).toNat, [])

/-- Shared tail of the anonymous / create-account / use-existing branches:
write_key(settings, key) followed by return key, with write failures
propagating. -/
def write_and_return (base_url : String) (key : Key) : PromptResult × List Event :=
  match write_key key with
  | .skipped => (.key key, [.writeKeyCall (some key)])
  | .written => (.key key, [.writeKeyCall (some key), .netrcWrite base_url "user" key])
  | .lengthError n => (.exn (.valueErrorLen n), [.writeKeyCall (some key)])
  | .unpackError => (.exn .unpackError, [.writeKeyCall (some key)])

/-- The anonymous branch (apikey.py lines 81-85): issue an anonymous key
from the remote service, persist it, return it. -/
def acquire_anon (base_url : String) (anon_key : Key) : PromptResult × List Event :=
  let r := write_and_return base_url anon_key
  (r.1, Event.netCreateAnonKey :: r.2)

/-- The create-account branch (apikey.py lines 86-99): try the browser
callback with signup=True; on a falsy result show the signup URL and read
a pasted key, stripping surrounding whitespace; then persist and return. -/
def acquire_new (base_url app_url : String) (browser : Option BrowserCb)
    (pasted : Key) : PromptResult × List Event :=
  let k0 : Key :=
    match browser with
    | some b => b.signup_result.getD []
    | none => []
  if k0 = [] then
    let key := stripKey pasted
    let r := write_and_return base_url key
    (r.1, Event.logCreateUrl app_url :: r.2)
  else write_and_return base_url k0

/-- The use-existing branch (apikey.py lines 100-114): like the
create-account branch but with the plain authorize URL and a no-argument
browser callback invocation. -/
def acquire_existing (base_url app_url : String) (browser : Option BrowserCb)
    (pasted : Key) : PromptResult × List Event :=
  let k0 : Key :=
    match browser with
    | some b => b.existing_result.getD []
    | none => []
  if k0 = [] then
    let key := stripKey pasted
    let r := write_and_return base_url key
    (r.1, Event.logExistingUrl app_url :: r.2)
  else write_and_return base_url k0

/-- The dry-run branch (apikey.py lines 115-125): in a notebook with a
browser callback, destructure its result as (key, anonymous); otherwise
(None, False).  Then write_key(settings, key) (a no-op for a falsy key)
and return key. -/
def acquire_dryrun (base_url : String) (jupyter : Bool)
    (browser : Option BrowserCb) : PromptResult × List Event :=
  let kb : Option Key × Bool :=
    if jupyter then
      match browser with
      | some b => b.dryrun_result
      | none => (none, false)
    else (none, false)
  match kb.1 with
  | none => (.noneKey, [.writeKeyCall none])
  | some k => write_and_return base_url k

/-- The decision procedure of apikey.prompt_api_key (lines 49-79), first
match wins: anonymous mode "must" forces the anonymous choice; a
non-interactive stdout or stdin forces dry-run; a local service forces
use-existing; otherwise the filtered menu is shown and the selection loop
runs.  Returns the chosen strategy (none when the finite input script was
exhausted) and the display events of this phase. -/
def decide_choice (s : Settings) (env : PromptEnv) (no_offline loc : Bool) :
    Option Choice × List Event :=
  let anon_mode := s.anonymous.getD "never"
  let choices := menu_choices anon_mode s.jupyter no_offline
  if anon_mode = "must" then (some .anon, [])
  else if ¬ env.tty_stdout ∨ ¬ env.tty_stdin then (some .dryRun, [])
  else if loc then (some .useExisting, [])
  else
    let menuEvs := choices.enum.map (fun ic => Event.menuLine (ic.1 + 1) ic.2)
    match choice_loop choices.length env.menu_script with
    | (none, warns) => (none, menuEvs ++ warns)
    | (some i, warns) =>
        let r := choices.getD i .dryRun
        (some r, menuEvs ++ warns ++ [.logChose r])

/-- apikey.prompt_api_key (lines 28-125): decide a strategy, then run its
branch.  In the source the chosen strategy string is dispatched through an
if/elif chain whose else arm is the dry-run branch; the closed Choice
enumeration makes the dispatch exact. -/
def prompt_api_key (s : Settings) (env : PromptEnv) (no_offline loc : Bool) :
    PromptResult × List Event :=
  let app_url := s.base_url.replace "//api." "//app."
  match decide_choice s env no_offline loc with
  | (none, evs) => (.blocked, evs)
  | (some c, evs) =>
      let r :=
        match c with
        | .anon => acquire_anon s.base_url env.anon_key
        | .createAccount => acquire_new s.base_url app_url env.browser env.pasted
        | .useExisting => acquire_existing s.base_url app_url env.browser env.pasted
        | .dryRun => acquire_dryrun s.base_url s.jupyter env.browser
      (r.1, evs ++ r.2)

/-- WandbLogin.login from wandb_login.py (lines 78-88).
is_apikey_configured resolves the persisted credential for the configured
host via apikey.api_key, a repository function not under src/.
Modelled from the spec: CredentialStore get(host) returns the credential
or absent (read failures are absent); the resolved value is the stored
argument.  A relogin setting discards the cached answer; when configured
and not silenced, the current identity is displayed. -/
def wlogin_login (s : Settings) (stored : Option Key) (silent_p : Bool)
    (entity : Option String) : Bool × List Event :=
  let configured := stored.isSome
  let configured := if s.relogin then false else configured
  if ¬ configured then (false, [.storeRead])
  else if ¬ silent_p then (true, [.storeRead, .logIdentity entity])
  else (true, [.storeRead])

/-- WandbLogin.update_session (lines 124-133): after rebinding the session
settings, pull user settings from the server unless offline. -/
def update_session_events (s : Settings) : List Event :=
  if ¬ s.offline then [Event.netUpdateUserSettings] else []

/-- WandbLogin.configure_api_key (lines 110-123): warn when an explicit
key is set from a notebook, persist through apikey.write_key (failures
propagate), then update the session.  Returns the raised error, if any. -/
def configure_api_key (s : Settings) (key : Key) : Option PyError × List Event :=
  let warnEvs := if s.jupyter ∧ ¬ s.silent then [Event.warnApiKeyInCode] else []
  match write_key key with
  | .written =>
      (none, warnEvs ++ [.writeKeyCall (some key),
        .netrcWrite s.base_url "user" key] ++ update_session_events s)
  | .skipped =>
      (none, warnEvs ++ [.writeKeyCall (some key)] ++ update_session_events s)
  | .lengthError n => (some (.valueErrorLen n), warnEvs ++ [.writeKeyCall (some key)])
  | .unpackError => (some .unpackError, warnEvs ++ [.writeKeyCall (some key)])

/-- The keyword parameter names apikey.prompt_api_key accepts after its
positional settings argument (apikey.py lines 28-35). -/
def prompt_api_key_params : List String :=
  ["api", "input_callback", "browser_callback", "no_offline", "local"]

/-- The keyword argument names WandbLogin.prompt_api_key passes to
apikey.prompt_api_key (wandb_login.py lines 137-142). -/
def login_prompt_kwargs : List String := ["api", "no_offline", "no_create"]

/-- A Python call binds only when every keyword argument names an accepted
parameter; otherwise it raises TypeError before the body runs. -/
def prompt_call_ok : Bool :=
  login_prompt_kwargs.all (fun k => prompt_api_key_params.contains k)

/-- Outcome of the WandbLogin prompt step. -/
inductive StepResult where
  | ok (k : Option Key)    -- prompt returned a key string or None
  | raised (e : PyError)
  | stuck                  -- the interactive loop exhausted the finite script
deriving DecidableEq, Repr

/-- WandbLogin.prompt_api_key (wandb_login.py lines 135-146): invoke
apikey.prompt_api_key with no_offline and no_create both set to the force
setting; a result identical to False raises UsageError; otherwise the
session is updated with the result.  The keyword binding check happens
first, as in Python call semantics. -/
def wlogin_prompt_api_key (s : Settings) (env : PromptEnv) :
    StepResult × List Event :=
  if prompt_call_ok then
    match prompt_api_key s env s.force false with
    | (.key k, evs) => (.ok (some k), .promptCall :: evs ++ update_session_events s)
    | (.noneKey, evs) => (.ok none, .promptCall :: evs ++ update_session_events s)
    | (.pyFalse, evs) => (.raised .usageError, .promptCall :: evs)
    | (.blocked, evs) => (.stuck, .promptCall :: evs)
    | (.exn e, evs) => (.raised e, .promptCall :: evs)
  else (.raised .typeError, [.promptCall])

/-- A value returned by the login entry points: a Python bool or a key
string. -/
inductive PyRet where
  | pyBool (b : Bool)
  | pyStr (k : Key)
deriving DecidableEq, Repr

/-- Truthiness of a returned value: a nonempty string is truthy. -/
def truthyRet : PyRet → Bool
  | .pyBool b => b
  | .pyStr k => decide (k ≠ [])

/-- Outcome of the underscore login flow. -/
inductive LoginOutcome where
  | ret (v : PyRet)
  | exn (e : PyError)
  | blocked
deriving DecidableEq, Repr

/-- The underscore login orchestrator from wandb_login.py (lines 157-207).
Inputs: the merged settings, the explicit key argument, the silent and
disable-warning parameters, whether a run is active (wandb.run is not
None), the credential resolved from the persisted store for the configured
host (modelled from the spec, see wlogin_login), the active entity
resolved for display, and the prompt environment.  Ordering follows the
source: active-run early return, offline early return, the login
short-circuit check, explicit-key configuration, the logged-in return,
and the interactive prompt step. -/
def _login (s : Settings) (key_arg : Option Key) (silent_p : Bool)
    (disable_warning : Bool) (run_active : Bool) (stored : Option Key)
    (entity : Option String) (env : PromptEnv) : LoginOutcome × List Event :=
  if run_active then
    (.ret (.pyBool true), if ¬ disable_warning then [.warnLoginIgnored] else [])
  else if s.offline then (.ret (.pyBool false), [])
  else
    let li := wlogin_login s stored silent_p entity
    let keyTruthy : Option Key :=
      match key_arg with
      | some k => if k = [] then none else some k
      | none => none
    match keyTruthy with
    | some k =>
        match configure_api_key s k with
        | (some e, evs2) => (.exn e, li.2 ++ evs2)
        | (none, evs2) =>
            if li.1 then (.ret (.pyBool true), li.2 ++ evs2)
            else (.ret (.pyStr k), li.2 ++ evs2)
    | none =>
        if li.1 then (.ret (.pyBool true), li.2)
        else
          match wlogin_prompt_api_key s env with
          | (.raised e, evs2) => (.exn e, li.2 ++ evs2)
          | (.stuck, evs2) => (.blocked, li.2 ++ evs2)
          | (.ok kres, evs2) =>
              let fin : LoginOutcome :=
                match kres with
                | some k => if k = [] then .ret (.pyBool false) else .ret (.pyStr k)
                | none => .ret (.pyBool false)
              (fin, li.2 ++ evs2)

/-- The public login entry point (wandb_login.py lines 22-42): forwards
its arguments to the underscore flow (leaving the backend, silent and
disable-warning parameters at their defaults) and collapses the result to
its truthiness. -/
def login (s : Settings) (key_arg : Option Key) (run_active : Bool)
    (stored : Option Key) (entity : Option String) (env : PromptEnv) :
    LoginOutcome × List Event :=
  match _login s key_arg false false run_active stored entity env with
  | (.ret v, evs) => (.ret (.pyBool (truthyRet v)), evs)
  | other => other

/-- Split at the FIRST dash only, as the validation claim words it:
the part before the first dash and the part after it, with an empty
front part and the whole key when no dash is present. -/
def split_first_dash (key : Key) : Key × Key :=
  if key.contains '-' then
    (key.takeWhile (fun c => c ≠ '-'), (key.dropWhile (fun c => c ≠ '-')).tail)
  else ([], key)

/-- Verdict of the validator as the claim describes it. -/
inductive SpecValidate where
  | accept
  | reject (n : Nat)
deriving DecidableEq, Repr

/-- Modelled from the claim text, for comparison with write_key: split at
the first dash, accept exactly when the suffix has length 40, otherwise
reject with the length of the full candidate. -/
def validate_spec (key : Key) : SpecValidate :=
  let ps := split_first_dash key
  if ps.2.length = 40 then .accept else .reject key.length

/-- A candidate whose suffix after the FIRST dash has length 40 but which
contains two dashes, so the full split has three parts. -/
def c1_key : Key := 'x' :: '-' :: 'a' :: '-' :: List.replicate 38 'b'

/-- Scenario B of the spec: force, no interactive terminal, anonymous mode
never, nothing stored, no explicit key. -/
def c2_settings : Settings :=
  { anonymous := some "never", jupyter := false, base_url := "https://api.wandb.ai",
    relogin := false, force := true, offline := false, silent := false }

/-- Environment for scenario B: neither stream is a terminal. -/
def c2_env : PromptEnv :=
  { tty_stdout := false, tty_stdin := false, menu_script := [], pasted := [],
    browser := none, anon_key := [] }

/-- A 40-character candidate returned by the dry-run browser callback. -/
def c3_key : Key := List.replicate 40 'c'

/-- A notebook configuration whose decision lands on dry-run. -/
def c3_settings : Settings :=
  { anonymous := none, jupyter := true, base_url := "https://api.test",
    relogin := false, force := false, offline := false, silent := false }

/-- A browser callback that yields a key at the dry-run call site. -/
def c3_browser : BrowserCb :=
  { signup_result := none, existing_result := none,
    dryrun_result := (some c3_key, true) }

/-- Notebook environment with a browser callback that yields a key at the
dry-run call site. -/
def c3_env : PromptEnv :=
  { tty_stdout := false, tty_stdin := false, menu_script := [], pasted := [],
    browser := some c3_browser, anon_key := [] }

/-- The 40-character key issued by the anonymous endpoint in scenario A. -/
def c4_key : Key := List.replicate 40 'h'

/-- Scenario A of the spec: anonymous mode must. -/
def c4_settings : Settings :=
  { anonymous := some "must", jupyter := false, base_url := "https://api.example.com",
    relogin := false, force := false, offline := false, silent := false }

/-- Environment for scenario A: the issuance endpoint returns c4_key. -/
def c4_env : PromptEnv :=
  { tty_stdout := true, tty_stdin := true, menu_script := [], pasted := [],
    browser := none, anon_key := c4_key }

/-- The credential already persisted for the host in the C5 scenario. -/
def c5_stored : Key := List.replicate 40 'd'

/-- The explicit key argument supplied alongside an already-resolving
credential in the C5 scenario. -/
def c5_newkey : Key := List.replicate 40 'e'

/-- Configuration with relogin false for the C5 scenario. -/
def c5_settings : Settings :=
  { anonymous := none, jupyter := false, base_url := "https://api.host",
    relogin := false, force := false, offline := false, silent := false }

/-- Quiescent environment for the C5 scenario. -/
def c5_env : PromptEnv :=
  { tty_stdout := true, tty_stdin := true, menu_script := [], pasted := [],
    browser := none, anon_key := [] }

/-- Settings for evaluating the ill-formed prompt invocation. -/
def c9_settings : Settings :=
  { anonymous := none, jupyter := false, base_url := "https://api.nine",
    relogin := true, force := false, offline := false, silent := false }

/-- Environment for evaluating the ill-formed prompt invocation. -/
def c9_env : PromptEnv :=
  { tty_stdout := true, tty_stdin := true, menu_script := [some 1], pasted := [],
    browser := none, anon_key := [] }

theorem dashCount_cons (c : Char) (cs : Key) :
    dashCount (c :: cs) = if c = '-' then dashCount cs + 1 else dashCount cs := by
  by_cases h : c = '-' <;> simp [dashCount, List.filter_cons, h]

theorem splitDash_ne_nil (k : Key) : splitDash k ≠ [] := by
  cases k with
  | nil => simp [splitDash]
  | cons c cs =>
      by_cases h : c = '-'
      · simp [splitDash, h]
      · simp only [splitDash, if_neg h]
        cases splitDash cs <;> simp

theorem splitDash_length (k : Key) : (splitDash k).length = dashCount k + 1 := by
  induction k with
  | nil => simp [splitDash, dashCount]
  | cons c cs ih =>
      by_cases h : c = '-'
      · simp [splitDash, h, dashCount_cons, ih]
      · simp only [splitDash, if_neg h, dashCount_cons]
        cases h2 : splitDash cs with
        | nil => exact absurd h2 (splitDash_ne_nil cs)
        | cons p ps =>
            rw [h2] at ih
            simp only [List.length_cons] at ih ⊢
            simp [h]
            omega

theorem splitDash_of_no_dash (k : Key) (h : dashCount k = 0) : splitDash k = [k] := by
  induction k with
  | nil => simp [splitDash]
  | cons c cs ih =>
      rw [dashCount_cons] at h
      by_cases hc : c = '-'
      · simp [hc] at h
      · rw [if_neg hc] at h
        simp [splitDash, hc, ih h]

theorem splitDash_of_one_dash (k : Key) (h : dashCount k = 1) :
    splitDash k = [k.takeWhile (fun c => c ≠ '-'),
      (k.dropWhile (fun c => c ≠ '-')).tail] := by
  induction k with
  | nil => simp [dashCount] at h
  | cons c cs ih =>
      rw [dashCount_cons] at h
      by_cases hc : c = '-'
      · rw [if_pos hc] at h
        have h0 : dashCount cs = 0 := by omega
        simp only [splitDash, if_pos hc, splitDash_of_no_dash cs h0]
        simp [List.takeWhile_cons, List.dropWhile_cons, hc]
      · rw [if_neg hc] at h
        simp only [splitDash, if_neg hc, ih h]
        simp [List.takeWhile_cons, List.dropWhile_cons, hc]

theorem dashCount_pos_of_mem (k : Key) (h : '-' ∈ k) :
    0 < dashCount k := by
  have h2 : '-' ∈ k.filter (fun c => c = '-') := by simp [List.mem_filter, h]
  unfold dashCount
  rw [List.length_pos]
  exact List.ne_nil_of_mem h2

theorem dashCount_eq_zero (k : Key) (h : '-' ∉ k) :
    dashCount k = 0 := by
  unfold dashCount
  rw [List.length_eq_zero, List.filter_eq_nil_iff]
  intro a ha
  simp only [decide_eq_true_eq]
  intro hc
  exact h (hc ▸ ha)

theorem write_key_le_one (key : Key) (h0 : key ≠ []) (h1 : dashCount key ≤ 1) :
    write_key key = (if (split_first_dash key).2.length = 40
      then .written else .lengthError key.length) := by
  unfold write_key split_first_dash
  rw [if_neg h0]
  by_cases hc : '-' ∈ key
  · have hpos := dashCount_pos_of_mem key hc
    have h1' : dashCount key = 1 := by omega
    rw [splitDash_of_one_dash key h1']
    simp [hc]
  · simp [hc]

theorem write_key_multi (key : Key) (h0 : key ≠ []) (h2 : 2 ≤ dashCount key) :
    write_key key = .unpackError := by
  unfold write_key
  rw [if_neg h0]
  have hc : '-' ∈ key := by
    by_contra hcf
    have := dashCount_eq_zero key hcf
    omega
  have hlen := splitDash_length key
  rcases hsd : splitDash key with _ | ⟨p0, _ | ⟨p1, _ | ⟨p2, tl⟩⟩⟩ <;>
    rw [hsd] at hlen <;> simp at hlen <;> try omega
  simp [hc]

theorem choice_loop_spec (n : Nat) (script : List (Option Int)) (i : Nat)
    (evs : List Event) (h : choice_loop n script = (some i, evs)) :
    i < n ∧ evs = (script.takeWhile (fun e => invalid_entry n e)).map
      (fun _ => Event.warnInvalidChoice) := by
  induction script generalizing evs with
  | nil => simp [choice_loop] at h
  | cons e rest ih =>
      by_cases hv : invalid_entry n e = true
      · rw [choice_loop, if_pos hv] at h
        rcases h2 : choice_loop n rest with ⟨r1, r2⟩
        rw [h2] at h
        simp only [Prod.mk.injEq] at h
        obtain ⟨ha, hb⟩ := h
        rw [ha] at h2
        obtain ⟨ih1, ih2⟩ := ih r2 h2
        refine ⟨ih1, ?_⟩
        rw [← hb, List.takeWhile_cons, hv]
        simp [ih2]
      · rw [choice_loop, if_neg hv] at h
        simp only [Prod.mk.injEq] at h
        obtain ⟨ha, hb⟩ := h
        have hv' : ¬(prompt_choice e < 0 ∨ prompt_choice e > (n : Int) - 1) := by
          simpa [invalid_entry] using hv
        constructor
        · have := Option.some.inj ha
          push_neg at hv'
          omega
        · rw [← hb, List.takeWhile_cons]
          simp [hv]

theorem menu_mem_iff (a : String) (j n : Bool) (c : Choice) :
    c ∈ menu_choices a j n ↔
      c ∈ LOGIN_CHOICES ∧ ¬(a = "never" ∧ c = .anon) ∧ ¬((j ∨ n) ∧ c = .dryRun) := by
  by_cases h : a = "never" <;> cases j <;> cases n <;> cases c <;>
    simp [menu_choices, LOGIN_CHOICES, h, List.erase_cons]

theorem getD_mem_of_lt (l : List Choice) (i : Nat) (d : Choice)
    (h : i < l.length) : l.getD i d ∈ l := by
  rw [List.getD_eq_getElem?_getD, List.getElem?_eq_getElem h]
  simp [List.getElem_mem]

theorem write_and_return_ne_pyFalse (u : String) (k : Key) :
    (write_and_return u k).1 ≠ .pyFalse := by
  unfold write_and_return
  cases hw : write_key k <;> simp [hw]

theorem prompt_api_key_ne_pyFalse (s : Settings) (env : PromptEnv)
    (no_off loc : Bool) : (prompt_api_key s env no_off loc).1 ≠ .pyFalse := by
  unfold prompt_api_key
  rcases hd : decide_choice s env no_off loc with ⟨oc, evs⟩
  cases oc with
  | none => simp
  | some c =>
      cases c <;>
        simp only [acquire_anon, acquire_new, acquire_existing, acquire_dryrun] <;>
        first
          | exact write_and_return_ne_pyFalse _ _
          | (split <;>
              first
                | exact write_and_return_ne_pyFalse _ _
                | simp [write_and_return_ne_pyFalse])

/-- Claim C1, counterexample: on the two-dash candidate c1_key the suffix
after the FIRST dash has length 40, so the claimed validator accepts and
persists it; write_key instead destructures the full split (three parts)
and fails with an unpacking error, neither accepting nor raising the
descriptive length error. -/
theorem c1_write_key_counterexample :
    validate_spec c1_key = .accept
  ∧ (split_first_dash c1_key).2.length = 40
  ∧ write_key c1_key = .unpackError := by
  refine ⟨by decide, by decide, by decide⟩

/-- Claim C1 (amended): write_key splits the candidate at EVERY dash, not
only the first.  An empty candidate returns silently; a candidate with at
most one dash is accepted exactly when the part after the first dash (the
whole candidate when no dash is present) has length 40, and otherwise
rejected with a descriptive error carrying the length of the full
candidate; a candidate with two or more dashes fails with an unpacking
error instead. -/
theorem c1_write_key_amended (key : Key) :
    (key = [] → write_key key = .skipped)
  ∧ (key ≠ [] → dashCount key ≤ 1 →
      write_key key = (if (split_first_dash key).2.length = 40
        then .written else .lengthError key.length))
  ∧ (key ≠ [] → 2 ≤ dashCount key → write_key key = .unpackError) :=
  ⟨fun h => by simp [write_key, h], write_key_le_one key, write_key_multi key⟩

/-- Witness for the amended C1 theorem: a one-dash key with a 40-character
suffix is written, and the two-dash c1_key hits the unpacking error. -/
theorem c1_write_key_amended_witness :
    (('x' :: '-' :: List.replicate 40 'b') ≠ []
      ∧ dashCount ('x' :: '-' :: List.replicate 40 'b') ≤ 1
      ∧ write_key ('x' :: '-' :: List.replicate 40 'b') =
          (if (split_first_dash ('x' :: '-' :: List.replicate 40 'b')).2.length = 40
            then .written else .lengthError ('x' :: '-' :: List.replicate 40 'b').length))
  ∧ (c1_key ≠ [] ∧ 2 ≤ dashCount c1_key ∧ write_key c1_key = .unpackError) :=
  ⟨⟨by decide, by decide,
      (c1_write_key_amended ('x' :: '-' :: List.replicate 40 'b')).2.1
        (by decide) (by decide)⟩,
    ⟨by decide, by decide, (c1_write_key_amended c1_key).2.2 (by decide) (by decide)⟩⟩

/-- Claim C2 (code bug): with force true, no interactive terminal,
anonymous mode never and no explicit credential, the flow raises TypeError
at the prompt invocation (unexpected keyword argument no_create) rather
than the claimed UsageError; moreover apikey.prompt_api_key returns None
on this path and never returns the Python False that the UsageError guard
tests, so even a well-formed call would not raise UsageError. -/
theorem c2_no_tty_force_bug :
    _login c2_settings none false false false none none c2_env =
      (.exn .typeError, [.storeRead, .promptCall])
  ∧ (prompt_api_key c2_settings c2_env true false).1 = .noneKey
  ∧ (∀ (s : Settings) (env : PromptEnv) (no_off loc : Bool),
      ((prompt_api_key s env no_off loc).1.isPyFalse) = false) :=
  ⟨by decide, by decide, fun s env no_off loc => by
    have hne := prompt_api_key_ne_pyFalse s env no_off loc
    cases h : (prompt_api_key s env no_off loc).1
    case pyFalse => exact absurd h hne
    all_goals rfl⟩

/-- Claim C3, counterexample: in a notebook whose browser callback yields
a 40-character key at the dry-run call site, the chosen strategy is DryRun
yet the flow persists that key and returns it, so DryRun can both produce
and persist a credential. -/
theorem c3_dryrun_counterexample :
    (decide_choice c3_settings c3_env false false).1 = some .dryRun
  ∧ (prompt_api_key c3_settings c3_env false false).1 = .key c3_key
  ∧ Event.netrcWrite "https://api.test" "user" c3_key
      ∈ (prompt_api_key c3_settings c3_env false false).2 := by
  refine ⟨by decide, by decide, by decide⟩

/-- Claim C3 (amended): the DryRun branch produces and persists nothing in
a non-notebook environment, and likewise in a notebook without a browser
callback, returning the empty credential with only the no-op write_key
call; when DryRun is the chosen strategy the flow runs exactly this
branch (in a notebook with a callback the callback result, when present,
is persisted and returned). -/
theorem c3_dryrun_amended :
    (∀ (u : String) (b : Option BrowserCb),
        acquire_dryrun u false b = (.noneKey, [.writeKeyCall none]))
  ∧ (∀ (u : String) (j : Bool),
        acquire_dryrun u j none = (.noneKey, [.writeKeyCall none]))
  ∧ (∀ (s : Settings) (env : PromptEnv) (no_off loc : Bool),
        (decide_choice s env no_off loc).1 = some .dryRun →
        (prompt_api_key s env no_off loc).1 =
          (acquire_dryrun s.base_url s.jupyter env.browser).1) := by
  refine ⟨?_, ?_, ?_⟩
  · intro u b
    cases b <;> simp [acquire_dryrun]
  · intro u j
    cases j <;> simp [acquire_dryrun]
  · intro s env no_off loc h
    rcases hd : decide_choice s env no_off loc with ⟨oc, evs⟩
    rw [hd] at h
    simp only at h
    subst h
    simp [prompt_api_key, hd]

/-- Witness for the amended C3 theorem: the non-interactive non-notebook
scenario decides DryRun and the flow returns the dry-run branch result,
which is the empty credential with no persistence. -/
theorem c3_dryrun_amended_witness :
    (decide_choice c2_settings c2_env true false).1 = some Choice.dryRun
  ∧ (prompt_api_key c2_settings c2_env true false).1 =
      (acquire_dryrun c2_settings.base_url c2_settings.jupyter c2_env.browser).1
  ∧ acquire_dryrun "u" false none = (.noneKey, [.writeKeyCall none]) :=
  ⟨by decide,
    c3_dryrun_amended.2.2 c2_settings c2_env true false (by decide),
    c3_dryrun_amended.1 "u" none⟩

/-- Claim C4 (code bug): with anonymous mode must and no explicit or
stored credential, the orchestrator crashes with TypeError at the prompt
invocation (unexpected keyword argument no_create) instead of returning
the issued key; the underlying routine, called with accepted arguments,
performs exactly the claimed pipeline: issuance, validation, persistence
for the configured host, and returns the 40-character key. -/
theorem c4_anonymous_flow_bug :
    _login c4_settings none false false false none none c4_env =
      (.exn .typeError, [.storeRead, .promptCall])
  ∧ prompt_api_key c4_settings c4_env false false =
      (.key c4_key, [.netCreateAnonKey, .writeKeyCall (some c4_key),
        .netrcWrite "https://api.example.com" "user" c4_key]) :=
  ⟨by decide, by decide⟩

/-- Claim C5, counterexample: with relogin false and a valid credential
already resolving for the host, supplying an explicit key argument makes
the flow write the credential store and contact the remote service for a
settings refresh, so the run is not free of network calls and persistence
writes. -/
theorem c5_short_circuit_counterexample :
    c5_settings.relogin = false
  ∧ (some c5_stored).isSome = true
  ∧ Event.netrcWrite "https://api.host" "user" c5_newkey
      ∈ (_login c5_settings (some c5_newkey) false false false (some c5_stored)
          none c5_env).2
  ∧ Event.netUpdateUserSettings
      ∈ (_login c5_settings (some c5_newkey) false false false (some c5_stored)
          none c5_env).2 := by
  refine ⟨by decide, by decide, by decide, by decide⟩

/-- Claim C5 (amended): with relogin false, a credential already resolving
for the configured host, and NO explicit credential supplied, the flow
terminates successfully with no network call and no persistence write:
its only effects are the store lookup and, unless silenced, the identity
display. -/
theorem c5_short_circuit_amended (s : Settings) (K : Key) (silent_p dis : Bool)
    (entity : Option String) (env : PromptEnv) :
    _login { s with relogin := false, offline := false } none silent_p dis false
        (some K) entity env =
      (.ret (.pyBool true),
        if silent_p then [.storeRead] else [.storeRead, .logIdentity entity])
  ∧ ((_login { s with relogin := false, offline := false } none silent_p dis false
        (some K) entity env).2.all
      (fun e => !e.isPersistWrite && !e.isNetwork)) = true := by
  have h1 : _login { s with relogin := false, offline := false } none silent_p dis
      false (some K) entity env =
      (.ret (.pyBool true),
        if silent_p then [.storeRead] else [.storeRead, .logIdentity entity]) := by
    cases silent_p <;> simp [_login, wlogin_login]
  refine ⟨h1, ?_⟩
  rw [h1]
  cases silent_p <;> simp [Event.isPersistWrite, Event.isNetwork]

/-- Claim C6: when the merged configuration is offline, the flow returns
not-configured (False) with an empty event trace: no store lookup, no
prompt, no acquisition, no persistence and no network contact. -/
theorem c6_offline_noop (s : Settings) (key_arg stored : Option Key)
    (silent_p dis : Bool) (entity : Option String) (env : PromptEnv) :
    _login { s with offline := true } key_arg silent_p dis false stored entity env =
      (.ret (.pyBool false), []) := by
  simp [_login]

/-- Claim C7: with relogin true the already-configured short-circuit is
never taken, whatever the persisted store holds: the login step reports
not-configured after only the store lookup, and the flow proceeds to
re-acquire, reaching the prompt invocation when no explicit key is given
and the write of the explicit key when one is. -/
theorem c7_relogin_forces_reacquire (s : Settings) (stored : Option Key)
    (silent_p dis : Bool) (entity : Option String) (env : PromptEnv) :
    wlogin_login { s with relogin := true, offline := false } stored silent_p entity =
      (false, [.storeRead])
  ∧ Event.promptCall ∈
      (_login { s with relogin := true, offline := false } none silent_p dis false
        stored entity env).2
  ∧ (∀ (ch : Char) (ks : Key), Event.writeKeyCall (some (ch :: ks)) ∈
      (_login { s with relogin := true, offline := false } (some (ch :: ks)) silent_p
        dis false stored entity env).2) := by
  refine ⟨by simp [wlogin_login], ?_, ?_⟩
  · simp [_login, wlogin_login, wlogin_prompt_api_key,
      show prompt_call_ok = false from rfl]
  · intro ch ks
    cases hw : write_key (ch :: ks) <;>
      simp [_login, wlogin_login, configure_api_key, hw]

/-- Claim C8: the interactive menu is exactly the four login choices minus
Anonymous when the anonymous mode is never and minus DryRun in a notebook
or when offline fallback is disallowed; the selection loop rejects each
non-numeric or out-of-range 1-based entry with exactly one warning and
re-prompts, and a returned selection is always a member of the filtered
menu. -/
theorem c8_menu_and_selection (a : String) (j n : Bool) (c : Choice)
    (script : List (Option Int)) (i : Nat) (evs : List Event)
    (h : choice_loop (menu_choices a j n).length script = (some i, evs)) :
    (c ∈ menu_choices a j n ↔
      c ∈ LOGIN_CHOICES ∧ ¬(a = "never" ∧ c = .anon) ∧ ¬((j ∨ n) ∧ c = .dryRun))
  ∧ i < (menu_choices a j n).length
  ∧ (menu_choices a j n).getD i .dryRun ∈ menu_choices a j n
  ∧ evs = (script.takeWhile
        (fun e => invalid_entry (menu_choices a j n).length e)).map
      (fun _ => Event.warnInvalidChoice) := by
  obtain ⟨h1, h2⟩ := choice_loop_spec _ script i evs h
  exact ⟨menu_mem_iff a j n c, h1, getD_mem_of_lt _ i .dryRun h1, h2⟩

/-- Witness for C8: with anonymous mode never outside a notebook the menu
is the three remaining choices; the script rejects a non-numeric entry and
an out-of-range entry with one warning each before accepting choice 1. -/
theorem c8_menu_and_selection_witness :
    choice_loop (menu_choices "never" false false).length [none, some 5, some 1] =
      (some 0, [Event.warnInvalidChoice, Event.warnInvalidChoice])
  ∧ ((Choice.createAccount ∈ menu_choices "never" false false ↔
        Choice.createAccount ∈ LOGIN_CHOICES
        ∧ ¬("never" = "never" ∧ Choice.createAccount = .anon)
        ∧ ¬((false ∨ false) ∧ Choice.createAccount = .dryRun))
      ∧ 0 < (menu_choices "never" false false).length
      ∧ (menu_choices "never" false false).getD 0 .dryRun ∈ menu_choices "never" false false
      ∧ [Event.warnInvalidChoice, Event.warnInvalidChoice] =
          (([none, some 5, some 1] : List (Option Int)).takeWhile
              (fun e => invalid_entry (menu_choices "never" false false).length e)).map
            (fun _ => Event.warnInvalidChoice)) :=
  ⟨by decide,
    c8_menu_and_selection "never" false false Choice.createAccount
      [none, some 5, some 1] 0 [Event.warnInvalidChoice, Event.warnInvalidChoice]
      (by decide)⟩

/-- Claim C9 (code bug): the orchestrator invokes apikey.prompt_api_key
with the keyword argument no_create, which the routine does not accept,
so every execution reaching the interactive acquisition step fails with
TypeError before any prompting. -/
theorem c9_prompt_call_kwarg_bug :
    prompt_call_ok = false
  ∧ "no_create" ∈ login_prompt_kwargs
  ∧ prompt_api_key_params.contains "no_create" = false
  ∧ wlogin_prompt_api_key c9_settings c9_env = (.raised .typeError, [.promptCall]) := by
  refine ⟨rfl, by decide, by decide, by decide⟩

/-- Claim C10: when a run is already active, login warns that the call has
no effect and returns True immediately, with no store lookup, acquisition,
validation or persistence, whatever key or settings were supplied. -/
theorem c10_active_run_short_circuit (s : Settings) (key_arg stored : Option Key)
    (entity : Option String) (env : PromptEnv) :
    login s key_arg true stored entity env =
      (.ret (.pyBool true), [.warnLoginIgnored]) := by
  simp [login, _login, truthyRet]

end Wandb
